import Mathlib

/-!
# Shallow embedding of the RV-801 RV32I emulator

This file embeds the decoder (`src/isa.rs`) and the execute pipeline
(`src/cpu.rs`) of the RV-801 repository and settles the frozen claims
about them.

Conventions of the embedding:

* Machine integers are modelled arithmetically: a `u32` register or
  memory byte is a `Nat` (kept below `2^32` resp. `2^8` by the writing
  sites), a Rust `i16`/`i32` value is an `Int` in the corresponding
  two's-complement range.  Casts (`as i16`, `as u32`, ...) and
  wrapping shifts are explicit functions below.
* A Rust function that can panic (`assert_eq!`, `expect`, slice
  indexing out of bounds) is embedded with an explicit failure value
  (`Res.panic`, or `none` for `Option`-shaped results).
* Several call sites in `src/cpu.rs` apply the `TwelveBitWrappingOps`
  helper (implemented only for `i16`) to `u32` register values, and
  apply bitwise/comparison operators across `u32`/`i16`; these
  expressions are embedded at the value level (signed values for the
  helper, the sign-extended immediate reinterpreted as a 32-bit
  pattern for the bitwise/unsigned ones), which is the reading the
  surrounding code and the repository's tests assume.  Each such spot
  is marked in its doc comment.
-/

namespace RV801

/-! ## Fixed-width arithmetic helpers -/

/-- Wrap an integer into the two's-complement `i16` range, i.e. the
value whose 16-bit pattern is `z mod 2^16`. -/
def wrap16 (z : Int) : Int := (z + 32768) % 65536 - 32768

/-- Wrap an integer into the two's-complement `i32` range. -/
def wrap32 (z : Int) : Int := (z + 2147483648) % 4294967296 - 2147483648

/-- Arithmetic shift right by `k` bits: floor division by `2^k`
(exact on the multiple `x - x % 2^k`, so every division convention
agrees). -/
def asr (x : Int) (k : Nat) : Int := (x - x % ((2 : Int) ^ k)) / ((2 : Int) ^ k)

/-- Rust `as i8` of a byte value: reinterpret the low 8 bits as a
two's-complement signed value. -/
def toI8 (n : Nat) : Int :=
  let m := n % 256
  if m < 128 then (m : Int) else (m : Int) - 256

/-- Rust `as i16` of an unsigned value: reinterpret the low 16 bits as
a two's-complement signed value. -/
def toI16 (n : Nat) : Int :=
  let m := n % 65536
  if m < 32768 then (m : Int) else (m : Int) - 65536

/-- Rust `as i32` of an unsigned value: reinterpret the low 32 bits as
a two's-complement signed value. -/
def toI32 (n : Nat) : Int :=
  let m := n % 4294967296
  if m < 2147483648 then (m : Int) else (m : Int) - 4294967296

/-- Rust `as u32` of a signed value: the 32-bit pattern of `z`. -/
def toU32 (z : Int) : Nat := (z % 4294967296).toNat

/-- Rust `as u64`/`as usize` (64-bit) of a signed value. -/
def toUsize (z : Int) : Nat := (z % 18446744073709551616).toNat

/-- The 16-bit pattern of an `i16` value (used for Rust bitwise `&` on
`i16`). -/
def bitsOfI16 (z : Int) : Nat := (z % 65536).toNat

/-- Rust `<<` on `i16`: the bit pattern shifted left, high bits
discarded. -/
def i16_shl (x : Int) (k : Nat) : Int := wrap16 (x * 2 ^ k)

/-- Rust `<<` on `i32`: the bit pattern shifted left, high bits
discarded. -/
def i32_shl (x : Int) (k : Nat) : Int := wrap32 (x * 2 ^ k)

/-- Byte `i` of the little-endian representation of `v`
(`u32::to_le_bytes`). -/
def leByte (v i : Nat) : Nat := v / 2 ^ (8 * i) % 256

/-- `u16::from_le_bytes`: combine two bytes little-endian. -/
def fromLeBytes2 (b0 b1 : Nat) : Nat := b0 + 256 * b1

/-- `u32::from_le_bytes`: combine four bytes little-endian. -/
def fromLeBytes4 (b0 b1 b2 b3 : Nat) : Nat :=
  b0 + 256 * b1 + 65536 * b2 + 16777216 * b3

/-! ## The decoder (`src/isa.rs`) -/

/-- The `RV32I` mnemonic enum of `src/isa.rs`. -/
inductive RV32I where
  | LUI | AUIPC | JAL | JALR
  | BEQ | BNE | BLT | BGE | BLTU | BGEU
  | LB | LH | LW | LBU | LHU
  | SB | SH | SW
  | ADDI | SLTI | SLTIU | XORI | ORI | ANDI | SLLI | SRLI | SRAI
  | ADD | SUB | SLL | SLT | SLTU | XOR | SRL | SRA | OR | AND
  | FENCE | ECALL | EBREAK
  deriving DecidableEq, Repr

/-- The `R` format payload (`struct R` in `src/isa.rs`). -/
structure RFields where
  funct7 : Nat
  rs2 : Nat
  rs1 : Nat
  funct3 : Nat
  rd : Nat
  opcode : Nat
  deriving DecidableEq, Repr

/-- The `I` format payload; `imm` is the source's `i16` value. -/
structure IFields where
  imm : Int
  rs1 : Nat
  funct3 : Nat
  rd : Nat
  opcode : Nat
  deriving DecidableEq, Repr

/-- The `S` format payload; `imm` is the source's `i16` value. -/
structure SFields where
  imm : Int
  rs2 : Nat
  rs1 : Nat
  funct3 : Nat
  opcode : Nat
  deriving DecidableEq, Repr

/-- The `B` format payload; `imm` is the source's `i16` value. -/
structure BFields where
  imm : Int
  rs2 : Nat
  rs1 : Nat
  funct3 : Nat
  opcode : Nat
  deriving DecidableEq, Repr

/-- The `U` format payload; `imm` is the source's `u32` value. -/
structure UFields where
  imm : Nat
  rd : Nat
  opcode : Nat
  deriving DecidableEq, Repr

/-- The `J` format payload; `imm` is the source's `i32` value. -/
structure JFields where
  imm : Int
  rd : Nat
  opcode : Nat
  deriving DecidableEq, Repr

/-- The `FENCE` format payload. -/
structure FENCEFields where
  fm : Nat
  pred : Nat
  succ : Nat
  rs1 : Nat
  funct3 : Nat
  rd : Nat
  opcode : Nat
  deriving DecidableEq, Repr

/-- The `InstructionType` enum of `src/isa.rs`. -/
inductive InstructionType where
  | R (f : RFields)
  | I (f : IFields)
  | S (f : SFields)
  | B (f : BFields)
  | U (f : UFields)
  | J (f : JFields)
  | FENCE (f : FENCEFields)
  deriving DecidableEq, Repr

/-- Result of a source function returning `Result<T, String>` whose
body may additionally panic (via `assert_eq!`). -/
inductive Res (α : Type) where
  | ok (a : α)
  | err (msg : String)
  | panic
  deriving DecidableEq, Repr

/-- `get_opcode` (`src/isa.rs:157`): the low 7 bits of the word. -/
def get_opcode (inst : Nat) : Nat := inst &&& 0x7F

/-- `parse_inst` (`src/isa.rs:161-314`).  The Rust `match` on the
opcode is rendered as an if-chain over the same literals; error
messages are abbreviated (the source formats the offending field into
the string).  The `assert_eq!` calls of the SYSTEM and FENCE arms are
embedded as `Res.panic` on failure. -/
def parse_inst (inst : Nat) : Res InstructionType :=
  let opcode := get_opcode inst
  if opcode = 0b0110111 ∨ opcode = 0b0010111 then
    -- U-Type
    let imm := (inst >>> 12) &&& 0xFFFFF
    let rd := (inst >>> 7) &&& 0x1F
    .ok (.U ⟨imm, rd, opcode⟩)
  else if opcode = 0b1101111 then
    -- J-Type: ((((inst >> 12) & 0xFFFFF) as i32) << 11) >> 11
    let imm := asr (i32_shl (toI32 ((inst >>> 12) &&& 0xFFFFF)) 11) 11
    let rd := (inst >>> 7) &&& 0x1F
    .ok (.J ⟨imm, rd, opcode⟩)
  else if opcode = 0b1100111 ∨ opcode = 0b0000011 ∨ opcode = 0b0010011 then
    -- I-Type: ((((inst >> 20) & 0xFFF) as i16) << 4) >> 4
    let imm := asr (i16_shl (toI16 ((inst >>> 20) &&& 0xFFF)) 4) 4
    let rs1 := (inst >>> 15) &&& 0x1F
    let funct3 := (inst >>> 12) &&& 0x7
    let rd := (inst >>> 7) &&& 0x1F
    .ok (.I ⟨imm, rs1, funct3, rd, opcode⟩)
  else if opcode = 0b1100011 then
    -- B-Type: assemble the 13-bit pattern as u16, then ((imm as i16) << 4) >> 4
    let immBits := ((((inst >>> 31) &&& 0x1) <<< 12) |||
                    (((inst >>> 7) &&& 0x1) <<< 11) |||
                    (((inst >>> 25) &&& 0x3F) <<< 5) |||
                    (((inst >>> 8) &&& 0xF) <<< 1)) % 65536
    let imm := asr (i16_shl (toI16 immBits) 4) 4
    let rs2 := (inst >>> 20) &&& 0x1F
    let rs1 := (inst >>> 15) &&& 0x1F
    let funct3 := (inst >>> 12) &&& 0x7
    .ok (.B ⟨imm, rs2, rs1, funct3, opcode⟩)
  else if opcode = 0b0100011 then
    -- S-Type
    let immBits := ((((inst >>> 25) &&& 0x7F) <<< 5) |||
                    (((inst >>> 7) &&& 0x1F) <<< 0)) % 65536
    let imm := asr (i16_shl (toI16 immBits) 4) 4
    let rs2 := (inst >>> 20) &&& 0x1F
    let rs1 := (inst >>> 15) &&& 0x1F
    let funct3 := (inst >>> 12) &&& 0x7
    .ok (.S ⟨imm, rs2, rs1, funct3, opcode⟩)
  else if opcode = 0b0110011 then
    -- R-Type
    let funct7 := (inst >>> 25) &&& 0x7F
    let rs2 := (inst >>> 20) &&& 0x1F
    let rs1 := (inst >>> 15) &&& 0x1F
    let funct3 := (inst >>> 12) &&& 0x7
    let rd := (inst >>> 7) &&& 0x1F
    .ok (.R ⟨funct7, rs2, rs1, funct3, rd, opcode⟩)
  else if opcode = 0b1110011 then
    -- ECALL, EBREAK: the source asserts imm = rs1 = funct3 = rd = 0
    let imm := asr (i16_shl (toI16 ((inst >>> 20) &&& 0xFFF)) 4) 4
    let rs1 := (inst >>> 15) &&& 0x1F
    let funct3 := (inst >>> 12) &&& 0x7
    let rd := (inst >>> 7) &&& 0x1F
    if imm = 0 ∧ rs1 = 0 ∧ funct3 = 0 ∧ rd = 0 then
      .ok (.I ⟨imm, rs1, funct3, rd, opcode⟩)
    else
      .panic
  else if opcode = 0b0001111 then
    -- FENCE: the source asserts funct3 = 0
    let fm := (inst >>> 28) &&& 0xF
    let pred := (inst >>> 24) &&& 0xF
    let succ := (inst >>> 20) &&& 0xF
    let rs1 := (inst >>> 15) &&& 0x1F
    let funct3 := (inst >>> 12) &&& 0x7
    let rd := (inst >>> 7) &&& 0x1F
    if funct3 = 0 then
      .ok (.FENCE ⟨fm, pred, succ, rs1, funct3, rd, opcode⟩)
    else
      .panic
  else if opcode = 0b0000000 then
    -- any word with all-zero opcode becomes ADDI x0, x0, 0
    .ok (.I ⟨0, 0, 0, 0, opcode⟩)
  else
    .err "Invalid opcode"

/-- `get_inst` (`src/isa.rs:316-413`): resolve an `InstructionType` to
its mnemonic.  The I-arm for opcode 0 carries the source's
`assert_eq!` checks as `Res.panic`. -/
def get_inst (t : InstructionType) : Res RV32I :=
  match t with
  | .R f =>
    if f.funct7 = 0b0000000 then
      if f.funct3 = 0b000 then .ok .ADD
      else if f.funct3 = 0b001 then .ok .SLL
      else if f.funct3 = 0b010 then .ok .SLT
      else if f.funct3 = 0b011 then .ok .SLTU
      else if f.funct3 = 0b100 then .ok .XOR
      else if f.funct3 = 0b101 then .ok .SRL
      else if f.funct3 = 0b110 then .ok .OR
      else if f.funct3 = 0b111 then .ok .AND
      else .err "Invalid funct3"
    else if f.funct7 = 0b0100000 then
      if f.funct3 = 0b000 then .ok .SUB
      else if f.funct3 = 0b101 then .ok .SRA
      else .err "Invalid funct3"
    else .err "Invalid funct7"
  | .B f =>
    if f.funct3 = 0b000 then .ok .BEQ
    else if f.funct3 = 0b001 then .ok .BNE
    else if f.funct3 = 0b100 then .ok .BLT
    else if f.funct3 = 0b101 then .ok .BGE
    else if f.funct3 = 0b110 then .ok .BLTU
    else if f.funct3 = 0b111 then .ok .BGEU
    else .err "Invalid funct3"
  | .I f =>
    if f.opcode = 0b1100111 then
      if f.funct3 = 0b000 then .ok .JALR else .err "Invalid funct3"
    else if f.opcode = 0b0000011 then
      if f.funct3 = 0b000 then .ok .LB
      else if f.funct3 = 0b001 then .ok .LH
      else if f.funct3 = 0b010 then .ok .LW
      else if f.funct3 = 0b100 then .ok .LBU
      else if f.funct3 = 0b101 then .ok .LHU
      else .err "Invalid funct3"
    else if f.opcode = 0b0010011 then
      if f.funct3 = 0b001 then .ok .SLLI
      else if f.funct3 = 0b101 then
        -- match i.imm & 0x400 (Rust i16 bitwise and, on the 16-bit pattern)
        if bitsOfI16 f.imm &&& 0x400 = 0x400 then .ok .SRAI else .ok .SRLI
      else if f.funct3 = 0b000 then .ok .ADDI
      else if f.funct3 = 0b010 then .ok .SLTI
      else if f.funct3 = 0b011 then .ok .SLTIU
      else if f.funct3 = 0b100 then .ok .XORI
      else if f.funct3 = 0b110 then .ok .ORI
      else if f.funct3 = 0b111 then .ok .ANDI
      else .err "Invalid funct3"
    else if f.opcode = 0b1110011 then
      if f.funct3 = 0b000 then .ok .ECALL
      else if f.funct3 = 0b001 then .ok .EBREAK
      else .err "Invalid funct3"
    else if f.opcode = 0b0000000 then
      if f.funct3 = 0 ∧ f.imm = 0 then .ok .ADDI else .panic
    else .err "Invalid funct3"
  | .S f =>
    if f.funct3 = 0b000 then .ok .SB
    else if f.funct3 = 0b001 then .ok .SH
    else if f.funct3 = 0b010 then .ok .SW
    else .err "Invalid funct3"
  | .U f =>
    if f.opcode = 0b0110111 then .ok .LUI
    else if f.opcode = 0b0010111 then .ok .AUIPC
    else .err "Invalid U opcode"
  | .J f =>
    if f.opcode = 0b1101111 then .ok .JAL
    else .err "Invalid J opcode"
  | .FENCE f =>
    if f.opcode = 0b0001111 then .ok .FENCE
    else .err "Invalid FENCE opcode"

/-- The `Instruction` struct of `src/isa.rs`. -/
structure Instruction where
  inst_type : InstructionType
  inst : RV32I
  raw : Nat
  deriving DecidableEq, Repr

/-- `Instruction::from` (`src/isa.rs:127-136`); the two `expect` calls
turn a parse or resolution failure into a panic, embedded as `none`. -/
def Instruction.fromWord (w : Nat) : Option Instruction :=
  match parse_inst w with
  | .ok t =>
    match get_inst t with
    | .ok d => some ⟨t, d, w⟩
    | _ => none
  | _ => none

/-- `Instruction::is_nop` (`src/isa.rs:138-154`); the unreachable
`panic!` arm (ADDI carried by a non-I payload) is embedded as `none`. -/
def Instruction.is_nop (i : Instruction) : Option Bool :=
  if i.raw = 0 then
    some true
  else
    match i.inst with
    | .ADDI =>
      match i.inst_type with
      | .I f => some (f.imm == 0 && f.rs1 == 0 && f.funct3 == 0 && f.rd == 0)
      | _ => none
    | _ => some false

/-! ## Memory (`memory: [u8; 0x10000]` in `src/cpu.rs`) -/

/-- The byte array, modelled as a function; only indices below
`MEM_SIZE` are ever read or written by the in-bounds operations. -/
def Mem : Type := Nat → Nat

/-- Memory size `0x10000` (`src/cpu.rs:8`). -/
def MEM_SIZE : Nat := 0x10000

/-- Write one byte (`self.memory[a] = v`), bounds handled at the call
sites. -/
def Mem.set8 (m : Mem) (a v : Nat) : Mem :=
  fun x => if x = a then v else m x

/-- The four little-endian byte writes performed by `CPU::sw`
(`src/cpu.rs:614-621`): deposit `v.to_le_bytes()` at `a..a+3`. -/
def store_u32 (m : Mem) (a v : Nat) : Mem :=
  (((m.set8 a (leByte v 0)).set8 (a + 1) (leByte v 1)).set8
      (a + 2) (leByte v 2)).set8 (a + 3) (leByte v 3)

/-- The little-endian word read performed by `CPU::lw` and
`CPU::fetch` (`src/cpu.rs:581-589`, `175-184`):
`u32::from_le_bytes` of the four bytes at `a..a+3`. -/
def load_u32 (m : Mem) (a : Nat) : Nat :=
  fromLeBytes4 (m a) (m (a + 1)) (m (a + 2)) (m (a + 3))

/-! ## The CPU (`src/cpu.rs`) -/

/-- The `CPU` struct (`src/cpu.rs:5-11`).  `regs` is the raw `u32`
array; the source has no x0-guarded accessors, every read and write
goes straight to the array. -/
structure CPU where
  regs : Nat → Nat
  pc : Nat
  memory : Mem
  exit_on_nop : Bool
  last_inst : Option Instruction

/-- `CPU::new` (`src/cpu.rs:165-173`): all registers and memory
zeroed, pc 0, `exit_on_nop` false. -/
def CPU.new : CPU :=
  ⟨fun _ => 0, 0, fun _ => 0, false, none⟩

/-- A register read, `self.regs[i as usize]` (no x0 special case
exists in the source). -/
def CPU.reg (c : CPU) (i : Nat) : Nat := c.regs i

/-- A register write, `self.regs[i as usize] = v` (no x0 guard exists
in the source). -/
def CPU.writeReg (c : CPU) (i v : Nat) : CPU :=
  { c with regs := fun x => if x = i then v else c.regs x }

/-- `CPU::fetch` (`src/cpu.rs:175-184`): `u32::from_le_bytes` of the
four bytes at `pc`, then `pc += 4`; indexing past the array panics
(`none`). -/
def CPU.fetch (c : CPU) : Option (Nat × CPU) :=
  if c.pc + 3 < MEM_SIZE then
    some (load_u32 c.memory c.pc, { c with pc := c.pc + 4 })
  else
    none

/-- The `TwelveBitWrappingOps::wrapping_add_12bit` helper for `i16`
(`src/cpu.rs:737-749`): a wrapping `i16` add whose result is then
saturated into `[-2047, 2047]`.  The call sites in `addi`, `jalr` and
the load/store address computations apply it to `u32` receivers (the
trait is implemented only for `i16`); we embed the helper at the value
level and the call sites pass the signed values of their operands. -/
def wrapping_add_12bit (a b : Int) : Int :=
  let result := wrap16 (a + b)
  if result ≥ 2047 then 2047
  else if result ≤ -2047 then -2047
  else result

/-- `RV32ISA::lui` (`src/cpu.rs:500-502`): `regs[rd] = imm` with no
x0 guard and no shift of the 20-bit field. -/
def CPU.lui (c : CPU) (rd : Nat) (imm : Nat) : CPU :=
  c.writeReg rd imm

/-- `RV32ISA::auipc` (`src/cpu.rs:504-506`): `regs[rd] = (pc as u32)
+ imm` (wrapping reading of the `u32` addition). -/
def CPU.auipc (c : CPU) (rd : Nat) (imm : Nat) : CPU :=
  c.writeReg rd ((c.pc % 4294967296 + imm) % 4294967296)

/-- `RV32ISA::jal` (`src/cpu.rs:508-513`).  Note that `self.pc` here
is already the post-fetch value, and that the `imm` parameter is the
J-immediate truncated by the caller's `as i16` cast. -/
def CPU.jal (c : CPU) (rd : Nat) (imm : Int) : CPU :=
  let tmp_pc := c.pc
  let sign_extended_imm := toU32 (asr (i32_shl imm 1) 1)
  let c1 := { c with pc := (c.pc + sign_extended_imm) % 18446744073709551616 &&& 0xFFFFFFFF }
  c1.writeReg rd ((tmp_pc % 4294967296 + 4) % 4294967296)

/-- `RV32ISA::jalr` (`src/cpu.rs:515-520`): the target is
`regs[rs1].wrapping_add_12bit(imm)` — no `& !1` of the low bit — and
`rd` receives `tmp_pc.wrapping_add_12bit(4)` where `tmp_pc` is the
post-fetch pc. -/
def CPU.jalr (c : CPU) (rd rs1 : Nat) (imm : Int) : CPU :=
  let tmp_pc := c.pc
  let sign_extended_imm := asr (i32_shl imm 1) 1
  let c1 := { c with pc := toU32 (wrapping_add_12bit (toI32 (c.reg rs1)) sign_extended_imm) }
  c1.writeReg rd (toU32 (wrapping_add_12bit (toI32 (tmp_pc % 4294967296)) 4))

/-- The taken-branch pc update shared by all six branches
(`src/cpu.rs:526` etc.): `((pc as i32) + ((imm as i32) << 1)) as
usize` — the already-shifted B-immediate is shifted left once more,
and the base is the post-fetch pc. -/
def branchTarget (pc : Nat) (imm : Int) : Nat :=
  toUsize (wrap32 (toI32 pc + i32_shl imm 1))

/-- `RV32ISA::beq` (`src/cpu.rs:522-528`). -/
def CPU.beq (c : CPU) (rs1 rs2 : Nat) (imm : Int) : CPU :=
  if c.reg rs1 = c.reg rs2 then { c with pc := branchTarget c.pc imm } else c

/-- `RV32ISA::bne` (`src/cpu.rs:530-536`). -/
def CPU.bne (c : CPU) (rs1 rs2 : Nat) (imm : Int) : CPU :=
  if c.reg rs1 ≠ c.reg rs2 then { c with pc := branchTarget c.pc imm } else c

/-- `RV32ISA::blt` (`src/cpu.rs:538-544`), signed compare. -/
def CPU.blt (c : CPU) (rs1 rs2 : Nat) (imm : Int) : CPU :=
  if toI32 (c.reg rs1) < toI32 (c.reg rs2) then { c with pc := branchTarget c.pc imm } else c

/-- `RV32ISA::bge` (`src/cpu.rs:546-552`), signed compare. -/
def CPU.bge (c : CPU) (rs1 rs2 : Nat) (imm : Int) : CPU :=
  if toI32 (c.reg rs1) ≥ toI32 (c.reg rs2) then { c with pc := branchTarget c.pc imm } else c

/-- `RV32ISA::bltu` (`src/cpu.rs:554-560`), unsigned compare. -/
def CPU.bltu (c : CPU) (rs1 rs2 : Nat) (imm : Int) : CPU :=
  if c.reg rs1 < c.reg rs2 then { c with pc := branchTarget c.pc imm } else c

/-- `RV32ISA::bgeu` (`src/cpu.rs:562-568`), unsigned compare. -/
def CPU.bgeu (c : CPU) (rs1 rs2 : Nat) (imm : Int) : CPU :=
  if c.reg rs1 ≥ c.reg rs2 then { c with pc := branchTarget c.pc imm } else c

/-- The load/store address `regs[rs1].wrapping_add_12bit(imm) as
usize` used by `lh`/`lw`/`lbu`/`lhu`/`sb`/`sh`/`sw`; signed-value
reading of the ill-typed helper application, then `as usize` of the
`u32` result. -/
def memAddr (c : CPU) (rs1 : Nat) (imm : Int) : Nat :=
  toU32 (wrapping_add_12bit (toI32 (c.reg rs1)) imm)

/-- `RV32ISA::lb` (`src/cpu.rs:570-573`): address via plain
`wrapping_add`, byte sign-extended `as i8 as i32 as u32`. -/
def CPU.lb (c : CPU) (rd rs1 : Nat) (imm : Int) : Option CPU :=
  let addr := toU32 ((c.reg rs1 : Int) + imm)
  if addr < MEM_SIZE then
    some (c.writeReg rd (toU32 (toI8 (c.memory addr))))
  else
    none

/-- `RV32ISA::lh` (`src/cpu.rs:575-579`). -/
def CPU.lh (c : CPU) (rd rs1 : Nat) (imm : Int) : Option CPU :=
  let addr := memAddr c rs1 imm
  if addr + 1 < MEM_SIZE then
    some (c.writeReg rd (toU32 (toI16 (fromLeBytes2 (c.memory addr) (c.memory (addr + 1))))))
  else
    none

/-- `RV32ISA::lw` (`src/cpu.rs:581-589`). -/
def CPU.lw (c : CPU) (rd rs1 : Nat) (imm : Int) : Option CPU :=
  let addr := memAddr c rs1 imm
  if addr + 3 < MEM_SIZE then
    some (c.writeReg rd (load_u32 c.memory addr))
  else
    none

/-- `RV32ISA::lbu` (`src/cpu.rs:591-594`). -/
def CPU.lbu (c : CPU) (rd rs1 : Nat) (imm : Int) : Option CPU :=
  let addr := memAddr c rs1 imm
  if addr < MEM_SIZE then
    some (c.writeReg rd (c.memory addr))
  else
    none

/-- `RV32ISA::lhu` (`src/cpu.rs:596-600`). -/
def CPU.lhu (c : CPU) (rd rs1 : Nat) (imm : Int) : Option CPU :=
  let addr := memAddr c rs1 imm
  if addr + 1 < MEM_SIZE then
    some (c.writeReg rd (fromLeBytes2 (c.memory addr) (c.memory (addr + 1))))
  else
    none

/-- `RV32ISA::sb` (`src/cpu.rs:602-605`): write the low byte of
`regs[rs2]` (`as u8`). -/
def CPU.sb (c : CPU) (rs1 rs2 : Nat) (imm : Int) : Option CPU :=
  let addr := memAddr c rs1 imm
  if addr < MEM_SIZE then
    some { c with memory := c.memory.set8 addr (c.reg rs2 % 256) }
  else
    none

/-- `RV32ISA::sh` (`src/cpu.rs:607-612`). -/
def CPU.sh (c : CPU) (rs1 rs2 : Nat) (imm : Int) : Option CPU :=
  let addr := memAddr c rs1 imm
  if addr + 1 < MEM_SIZE then
    some { c with memory := (c.memory.set8 addr (leByte (c.reg rs2) 0)).set8 (addr + 1) (leByte (c.reg rs2) 1) }
  else
    none

/-- `RV32ISA::sw` (`src/cpu.rs:614-621`). -/
def CPU.sw (c : CPU) (rs1 rs2 : Nat) (imm : Int) : Option CPU :=
  let addr := memAddr c rs1 imm
  if addr + 3 < MEM_SIZE then
    some { c with memory := store_u32 c.memory addr (c.reg rs2) }
  else
    none

/-- `RV32ISA::addi` (`src/cpu.rs:623-626`): sign-extend `imm` from 12
bits (a no-op on the already sign-extended decode value) and set
`regs[rd] = regs[rs1].wrapping_add_12bit(imm)` — the saturating
helper, not a 32-bit wrapping add. -/
def CPU.addi (c : CPU) (rd rs1 : Nat) (imm : Int) : CPU :=
  let imm2 := asr (i32_shl imm 20) 20
  c.writeReg rd (toU32 (wrapping_add_12bit (toI32 (c.reg rs1)) imm2))

/-- `RV32ISA::slti` (`src/cpu.rs:628-635`), signed compare. -/
def CPU.slti (c : CPU) (rd rs1 : Nat) (imm : Int) : CPU :=
  c.writeReg rd (if toI32 (c.reg rs1) < imm then 1 else 0)

/-- `RV32ISA::sltiu` (`src/cpu.rs:637-644`): `regs[rs1] < imm`, the
`u32`-vs-`i16` comparison read as unsigned against the immediate's
32-bit pattern. -/
def CPU.sltiu (c : CPU) (rd rs1 : Nat) (imm : Int) : CPU :=
  c.writeReg rd (if c.reg rs1 < toU32 imm then 1 else 0)

/-- `RV32ISA::xori` (`src/cpu.rs:646-648`), bitwise with the
immediate's 32-bit pattern. -/
def CPU.xori (c : CPU) (rd rs1 : Nat) (imm : Int) : CPU :=
  c.writeReg rd (c.reg rs1 ^^^ toU32 imm)

/-- `RV32ISA::ori` (`src/cpu.rs:650-652`). -/
def CPU.ori (c : CPU) (rd rs1 : Nat) (imm : Int) : CPU :=
  c.writeReg rd (c.reg rs1 ||| toU32 imm)

/-- `RV32ISA::andi` (`src/cpu.rs:654-656`). -/
def CPU.andi (c : CPU) (rd rs1 : Nat) (imm : Int) : CPU :=
  c.writeReg rd (c.reg rs1 &&& toU32 imm)

/-- `RV32ISA::slli` (`src/cpu.rs:658-660`): `regs[rs1] << imm`, shift
amount taken mod 32 (release-mode masking). -/
def CPU.slli (c : CPU) (rd rs1 : Nat) (imm : Int) : CPU :=
  c.writeReg rd ((c.reg rs1 <<< (imm.toNat % 32)) % 4294967296)

/-- `RV32ISA::srli` (`src/cpu.rs:662-664`). -/
def CPU.srli (c : CPU) (rd rs1 : Nat) (imm : Int) : CPU :=
  c.writeReg rd (c.reg rs1 >>> (imm.toNat % 32))

/-- `RV32ISA::srai` (`src/cpu.rs:666-669`), arithmetic shift of the
signed register value. -/
def CPU.srai (c : CPU) (rd rs1 : Nat) (imm : Int) : CPU :=
  c.writeReg rd (toU32 (asr (toI32 (c.reg rs1)) (imm.toNat % 32)))

/-- `RV32ISA::add` (`src/cpu.rs:671-673`): a genuine `u32`
`wrapping_add`.  Never reached by `execute` (see `CPU.execute`). -/
def CPU.add (c : CPU) (rd rs1 rs2 : Nat) : CPU :=
  c.writeReg rd ((c.reg rs1 + c.reg rs2) % 4294967296)

/-- `RV32ISA::sub` (`src/cpu.rs:675-677`): `u32` `wrapping_sub`.
Never reached by `execute`. -/
def CPU.sub (c : CPU) (rd rs1 rs2 : Nat) : CPU :=
  c.writeReg rd (toU32 ((c.reg rs1 : Int) - c.reg rs2))

/-- `CPU::execute` (`src/cpu.rs:197-477`).  Only LUI through SRAI
have dispatch arms; every other mnemonic — all R-type operations,
FENCE, ECALL and EBREAK — falls into the catch-all that prints
"Unimplemented instruction" and returns status 1 without touching the
state.  A payload/mnemonic mismatch panics (`none`); memory panics
propagate.  The returned `Nat` is the `u8` status. -/
def CPU.execute (c : CPU) (i : Instruction) : Option (CPU × Nat) :=
  match i.inst, i.inst_type with
  | .LUI, .U f => some (c.lui f.rd f.imm, 0)
  | .LUI, _ => none
  | .AUIPC, .U f => some (c.auipc f.rd f.imm, 0)
  | .AUIPC, _ => none
  | .JAL, .J f => some (c.jal f.rd (toI16 (toUsize f.imm)), 0)
  | .JAL, _ => none
  | .JALR, .I f => some (c.jalr f.rd f.rs1 f.imm, 0)
  | .JALR, _ => none
  | .BEQ, .B f => some (c.beq f.rs1 f.rs2 f.imm, 0)
  | .BEQ, _ => none
  | .BNE, .B f => some (c.bne f.rs1 f.rs2 f.imm, 0)
  | .BNE, _ => none
  | .BLT, .B f => some (c.blt f.rs1 f.rs2 f.imm, 0)
  | .BLT, _ => none
  | .BGE, .B f => some (c.bge f.rs1 f.rs2 f.imm, 0)
  | .BGE, _ => none
  | .BLTU, .B f => some (c.bltu f.rs1 f.rs2 f.imm, 0)
  | .BLTU, _ => none
  | .BGEU, .B f => some (c.bgeu f.rs1 f.rs2 f.imm, 0)
  | .BGEU, _ => none
  | .LB, .I f => (c.lb f.rd f.rs1 f.imm).map (·, 0)
  | .LB, _ => none
  | .LH, .I f => (c.lh f.rd f.rs1 f.imm).map (·, 0)
  | .LH, _ => none
  | .LW, .I f => (c.lw f.rd f.rs1 f.imm).map (·, 0)
  | .LW, _ => none
  | .LBU, .I f => (c.lbu f.rd f.rs1 f.imm).map (·, 0)
  | .LBU, _ => none
  | .LHU, .I f => (c.lhu f.rd f.rs1 f.imm).map (·, 0)
  | .LHU, _ => none
  | .SB, .S f => (c.sb f.rs1 f.rs2 f.imm).map (·, 0)
  | .SB, _ => none
  | .SH, .S f => (c.sh f.rs1 f.rs2 f.imm).map (·, 0)
  | .SH, _ => none
  | .SW, .S f => (c.sw f.rs1 f.rs2 f.imm).map (·, 0)
  | .SW, _ => none
  | .ADDI, .I f => some (c.addi f.rd f.rs1 f.imm, 0)
  | .ADDI, _ => none
  | .SLTI, .I f => some (c.slti f.rd f.rs1 f.imm, 0)
  | .SLTI, _ => none
  | .SLTIU, .I f => some (c.sltiu f.rd f.rs1 f.imm, 0)
  | .SLTIU, _ => none
  | .XORI, .I f => some (c.xori f.rd f.rs1 f.imm, 0)
  | .XORI, _ => none
  | .ORI, .I f => some (c.ori f.rd f.rs1 f.imm, 0)
  | .ORI, _ => none
  | .ANDI, .I f => some (c.andi f.rd f.rs1 f.imm, 0)
  | .ANDI, _ => none
  | .SLLI, .I f => some (c.slli f.rd f.rs1 f.imm, 0)
  | .SLLI, _ => none
  | .SRLI, .I f => some (c.srli f.rd f.rs1 f.imm, 0)
  | .SRLI, _ => none
  | .SRAI, .I f => some (c.srai f.rd f.rs1 f.imm, 0)
  | .SRAI, _ => none
  | _, _ => some (c, 1)

/-- Outcome of one iteration of `Interface::run` for `CPU`
(`src/cpu.rs:486-496`). -/
inductive StepOutcome where
  | exit (status : Nat)
  | next (c : CPU)
  | panic

/-- One iteration of the `run` loop (`src/cpu.rs:486-496`): fetch,
decode, execute — the status returned by `execute` is DISCARDED, as in
the source —, record `last_inst`, and return 0 iff `exit_on_nop` is
set and the instruction is a NOP; otherwise the loop continues. -/
def CPU.step (c : CPU) : StepOutcome :=
  match c.fetch with
  | none => .panic
  | some (w, c1) =>
    match Instruction.fromWord w with
    | none => .panic
    | some i =>
      match c1.execute i with
      | none => .panic
      | some (c2, _status) =>
        let c3 := { c2 with last_inst := some i }
        match i.is_nop with
        | none => .panic
        | some b => if c3.exit_on_nop && b then .exit 0 else .next c3

/-- The pc of a continuing step outcome. -/
def StepOutcome.pcOf : StepOutcome → Option Nat
  | .next c => some c.pc
  | _ => none

/-- A register of a continuing step outcome. -/
def StepOutcome.regOf : StepOutcome → Nat → Option Nat
  | .next c, i => some (c.reg i)
  | _, _ => none

/-- A zeroed CPU with `exit_on_nop` set (as `init_cpu_test` in
`src/main.rs`) whose memory holds the little-endian bytes of the
single word `w` at address 0 (as `Interface::from_inst` +
`Interface::load` place them). -/
def bootWith (w : Nat) : CPU :=
  { CPU.new with memory := store_u32 CPU.new.memory 0 w, exit_on_nop := true }

/-! ## Helper lemmas -/

/-- Recomposition of a 32-bit value from its base-256 digits. -/
theorem le_digits_recompose (v : Nat) (hv : v < 4294967296) :
    v % 256 + 256 * (v / 256 % 256) + 65536 * (v / 65536 % 256) +
      16777216 * (v / 16777216 % 256) = v := by
  omega

/-- Storing a 32-bit value little-endian and reading the same four
bytes back recovers the value. -/
theorem load_store_eq (m : Mem) (a v : Nat) (hv : v < 4294967296) :
    load_u32 (store_u32 m a v) a = v := by
  have h3 : a ≠ a + 3 := by omega
  have h2 : a ≠ a + 2 := by omega
  have h1 : a ≠ a + 1 := by omega
  have h12 : a + 1 ≠ a + 2 := by omega
  have h13 : a + 1 ≠ a + 3 := by omega
  have h23 : a + 2 ≠ a + 3 := by omega
  simp only [load_u32, store_u32, Mem.set8, fromLeBytes4, leByte,
    if_pos rfl, if_neg h1, if_neg h2, if_neg h3, if_neg h12, if_neg h13, if_neg h23]
  norm_num
  omega

/-! ## Claims -/

/-- C1 (code bug): the register file does not discard writes to
register 0.  Executing `LUI x0, 1` (word 0x00001037) on a freshly
booted CPU leaves register 0 reading 1, not 0: `lui` writes the raw
`regs` array with no x0 guard. -/
theorem c1_lui_writes_x0 :
    ((Instruction.fromWord 0x00001037).bind
        (fun i => CPU.new.execute i)).map (fun r => r.1.reg 0) = some 1 := rfl

/-- C2 (code bug): `addi` does not compute the two's-complement
wrap-around sum; it routes the sum through the saturating
`wrapping_add_12bit` helper.  With `reg[rs1] = 2047` (a reachable
value — the repository's own `addi` test produces it) executing
`ADDI x2, x1, 1` (word 0x00108113) stores 2047, not the wrapped sum
2048; the helper itself clamps `2047 + 1` to 2047. -/
theorem c2_addi_saturates :
    ((Instruction.fromWord 0x00108113).bind
        (fun i => (CPU.new.writeReg 1 2047).execute i)).map (fun r => r.1.reg 2) = some 2047 ∧
    wrapping_add_12bit 2047 1 = 2047 := ⟨rfl, rfl⟩

/-- C3 (code bug): on an unrecognised opcode `parse_inst` does return
a decode-failure `Err`, but `Instruction::from` unwraps it with
`expect`, so the driver loop panics instead of terminating with a
non-zero exit status: for the word 0x00000057 (opcode 1010111, not in
the dispatch table) one iteration of `run` is a panic, not an
`exit` with non-zero status. -/
theorem c3_decode_failure_panics :
    parse_inst 0x00000057 = .err "Invalid opcode" ∧
    CPU.step (bootWith 0x00000057) = .panic := ⟨rfl, rfl⟩

/-- C4 (code bug): executing `JALR x5, x1, 0` (word 0x000082E7) at
PC_pre = 0 with `reg[x1] = 3` sets PC to 3 — the low bit is NOT
cleared (`& !1` is missing) and the sum goes through the saturating
12-bit helper — and stores 8 = PC_pre + 8 in x5, because `tmp_pc` is
captured after fetch has already advanced the pc.  The claim requires
PC = 2 and reg[x5] = 4. -/
theorem c4_jalr_semantics_diverge :
    (((bootWith 0x000082E7).writeReg 1 3).step).pcOf = some 3 ∧
    (((bootWith 0x000082E7).writeReg 1 3).step).regOf 5 = some 8 := ⟨rfl, rfl⟩

/-- C5 (code bug): executing the taken branch `BEQ x0, x0, +8`
(word 0x00000463) from PC_pre = 0 sets PC to 20, not PC_pre + 8: the
executor adds `imm << 1` (shifting the already-shifted B-immediate a
second time) to the post-fetch pc, and the decoder additionally
sign-extends the 13-bit B-immediate from bit 11, dropping bit 12. -/
theorem c5_beq_target_diverges :
    (CPU.step (bootWith 0x00000463)).pcOf = some 20 := rfl

/-- C6 (code bug): the decoder does not assemble the J-format
immediate at all; it returns the raw field `(inst >> 12) & 0xFFFFF`.
For the JAL word 0x0000106F (bit 12 set) the decoded immediate is 1 —
odd, although the claim says the low bit is always 0 — whereas the
J-format assembly gives 4096. -/
theorem c6_jal_imm_raw_field :
    parse_inst 0x0000106F = .ok (.J ⟨1, 0, 0b1101111⟩) := rfl

/-- C7 (code bug): `execute` has no dispatch arm for any R-type
operation; ADD falls into the catch-all which returns status 1 and
leaves the registers untouched.  Executing `ADD x1, x1, x2` (word
0x002080B3) with x1 = 5, x2 = 7 leaves x1 = 5 (the claim requires 12)
and yields status 1; the correct `add`/`sub` methods exist but are
never called. -/
theorem c7_add_unimplemented :
    ((Instruction.fromWord 0x002080B3).bind
        (fun i => ((CPU.new.writeReg 1 5).writeReg 2 7).execute i)).map
      (fun r => (r.1.reg 1, r.2)) = some (5, 1) := rfl

/-- C8 (code bug): decoding the SYSTEM word with immediate 1 — EBREAK,
word 0x00100073 — panics on the decoder's `assert_eq!(imm, 0)` instead
of succeeding; only ECALL (word 0x00000073) decodes, and `get_inst`
discriminates ECALL/EBREAK by funct3, not by the immediate. -/
theorem c8_ebreak_decode_panics :
    parse_inst 0x00100073 = .panic ∧
    parse_inst 0x00000073 = .ok (.I ⟨0, 0, 0, 0, 0b1110011⟩) ∧
    get_inst (.I ⟨0, 0, 0, 0, 0b1110011⟩) = .ok .ECALL := ⟨rfl, rfl, rfl⟩

/-- C9 (confirmed): the little-endian word store performed by `sw`
followed by the word load performed by `lw` at the same valid address
returns exactly the stored value. -/
theorem c9_load_store_roundtrip (m : Mem) (a v : Nat)
    (_ha : a + 4 ≤ 65536) (hv : v < 4294967296) :
    load_u32 (store_u32 m a v) a = v :=
  load_store_eq m a v hv

/-- Witness for C9 at `a = 0`, `v = 0xDEADBEEF` on zeroed memory. -/
theorem c9_load_store_roundtrip_witness :
    (0 + 4 ≤ 65536 ∧ 3735928559 < 4294967296) ∧
    load_u32 (store_u32 (fun _ => 0) 0 3735928559) 0 = 3735928559 :=
  ⟨⟨by norm_num, by norm_num⟩,
    c9_load_store_roundtrip (fun _ => 0) 0 3735928559 (by norm_num) (by norm_num)⟩

/-- `is_nop` holds on the canonical decoded NOP carried by any raw
word. -/
theorem is_nop_of_nop_fields (w : Nat) :
    Instruction.is_nop ⟨.I ⟨0, 0, 0, 0, 0⟩, .ADDI, w⟩ = some true := by
  rcases eq_or_ne w 0 with hw | hw <;> simp [Instruction.is_nop, hw]

/-- C10 (confirmed): every 32-bit word whose low 7 bits are zero —
not only the all-zero word — decodes as `ADDI x0, x0, 0`, the other
25 bits being ignored, and one iteration of the driver loop with
`exit_on_nop` set on such a word returns status 0. -/
theorem c10_zero_opcode_nop (w : Nat) (h32 : w < 4294967296)
    (h : w &&& 127 = 0) :
    parse_inst w = .ok (.I ⟨0, 0, 0, 0, 0⟩) ∧
    Instruction.fromWord w = some ⟨.I ⟨0, 0, 0, 0, 0⟩, .ADDI, w⟩ ∧
    CPU.step (bootWith w) = .exit 0 := by
  have hop : get_opcode w = 0 := h
  have hp : parse_inst w = .ok (.I ⟨0, 0, 0, 0, 0⟩) := by
    simp [parse_inst, hop]
  have hf : Instruction.fromWord w = some ⟨.I ⟨0, 0, 0, 0, 0⟩, .ADDI, w⟩ := by
    simp [Instruction.fromWord, hp, get_inst]
  refine ⟨hp, hf, ?_⟩
  have hmem := load_store_eq (fun _ => 0) 0 w h32
  simp only [CPU.step, CPU.fetch, bootWith, MEM_SIZE, CPU.new]
  norm_num
  rw [hmem, hf]
  simp only [CPU.execute, CPU.addi, CPU.writeReg, CPU.reg, CPU.new]
  norm_num [toI32, toU32, wrapping_add_12bit, wrap16, asr, i32_shl, wrap32,
    is_nop_of_nop_fields]

/-- Witness for C10 at `w = 0xFFFFFF80`, whose upper 25 bits are all
ones. -/
theorem c10_zero_opcode_nop_witness :
    (4294967168 < 4294967296 ∧ 4294967168 &&& 127 = 0) ∧
    (parse_inst 4294967168 = .ok (.I ⟨0, 0, 0, 0, 0⟩) ∧
     Instruction.fromWord 4294967168 = some ⟨.I ⟨0, 0, 0, 0, 0⟩, .ADDI, 4294967168⟩ ∧
     CPU.step (bootWith 4294967168) = .exit 0) :=
  ⟨⟨by norm_num, by decide⟩,
    c10_zero_opcode_nop 4294967168 (by norm_num) (by decide)⟩

end RV801
